import Mathlib

/-!
PCBoven USB driver: a shallow embedding of `driver/src/pcboven_usb.c`.

The driver keeps one `driver_context` (the oven state, the bound USB device
pointer, the fasync queue and the interrupt transfer buffer).  Every driver
entry point is embedded as a pure function from the context before the call to
the context after it, together with the value returned to the kernel and the
list of externally visible effects (signals to subscribers, URB submissions,
copies to user space).  Outcomes decided by the kernel (allocation results,
the return value of `usb_submit_urb`, whether `copy_to_user` faults) are
explicit arguments.  Log lines (`printk`) are not modelled.
-/

namespace PCBoven

/-! ## Machine integers -/

/-- Conversion to `int16_t`: the value modulo 2^16, read as two's complement. -/
def to_int16 (n : Int) : Int := (n + 32768) % 65536 - 32768

/-- Conversion to `int` (32 bits): the value modulo 2^32, read as two's complement. -/
def to_int32 (n : Int) : Int := (n + 2147483648) % 4294967296 - 2147483648

/-- The C expression `a << k` on `int` operands (two's complement, 32 bits). -/
def shl_int (a : Int) (k : Nat) : Int := to_int32 (a * 2 ^ k)

/-- The C expression `a >> k` on `int` operands: arithmetic shift, i.e. floor division. -/
def shr_int (a : Int) (k : Nat) : Int := a / 2 ^ k

/-- The C expression `a & 0xFF` on a two's complement `int`: the low eight bits. -/
def and_0xFF (a : Int) : Int := a % 256

/-- The C expression `data << 2` on `unsigned long` (64 bits). -/
def shl_ulong (data : Nat) (k : Nat) : Nat := (data * 2 ^ k) % 2 ^ 64

/-! ## Constants -/

def IN_BUF_LEN : Nat := 9
def OUT_BUF_LEN : Nat := 3

def ENOMEM : Int := 12
def EFAULT : Int := 14
def ENODEV : Int := 19
def EINVAL : Int := 22
def ENOTTY : Int := 25

/-! ## Data model -/

/-- Modelled from the spec: `struct oven_state` of `pcboven_usb.h` (the header is not
among the sources); two sensor temperatures and the target are signed 16-bit, the
flags are booleans. -/
structure oven_state where
  probe_temp : Int
  internal_temp : Int
  fault_short_vcc : Bool
  fault_short_gnd : Bool
  fault_open_circuit : Bool
  filament_top_on : Bool
  filament_bottom_on : Bool
  target_temp : Int
  enable_filaments : Bool
deriving DecidableEq, Repr

/-- A non-NULL `struct usb_device *`: either the address of the static
`DUMMY_USB_DEVICE` or a device handed over by the USB core. -/
inductive usb_device_ptr where
  | DUMMY_USB_DEVICE
  | real (handle : Nat)
deriving DecidableEq, Repr

/-- The packed wire frame `struct oven_usb_frame` (2 + 2 + 5 = 9 bytes). -/
structure oven_usb_frame where
  probe : Int
  internal : Int
  short_vcc : Nat
  short_gnd : Nat
  open_circuit : Nat
  top_on : Nat
  bottom_on : Nat
deriving DecidableEq, Repr

/-- The value of `sizeof(struct oven_usb_frame)`. -/
def sizeof_oven_usb_frame : Nat := 9

/-- The device context `struct driver_context`; `usb_device = none` is the NULL pointer,
`async_queue = []` is the NULL fasync list, its entries are the subscribed files. -/
structure driver_context where
  oven : oven_state
  usb_device : Option usb_device_ptr
  async_queue : List Nat
  transfer_buffer : List Nat
deriving DecidableEq, Repr

/-- Externally visible actions of the driver. -/
inductive Effect where
  /-- One call `kill_fasync(&async_queue, SIGIO, POLL_IN)` on the given queue. -/
  | kill_fasync (queue : List Nat)
  /-- The call `usb_submit_urb` on the interrupt-in read URB, with its return value. -/
  | submit_read (result : Int)
  /-- The call `usb_submit_urb` on a bulk-out URB carrying `bytes`, with its return value. -/
  | submit_command (dev : usb_device_ptr) (bytes : List Int) (result : Int)
  /-- A completed `copy_to_user` of the oven state to the user address `dst`. -/
  | copy_to_user (dst : Nat) (st : oven_state)
deriving DecidableEq, Repr

/-- Outcomes decided by the kernel during one driver call. -/
structure kernel where
  /-- Whether `kmalloc` returns a buffer. -/
  kmalloc_ok : Bool
  /-- Whether `usb_alloc_urb` returns a URB. -/
  alloc_urb_ok : Bool
  /-- Return value of `usb_submit_urb`. -/
  submit_result : Int
  /-- Whether `copy_to_user` copies everything (returns 0). -/
  copy_ok : Bool
deriving DecidableEq, Repr

/-- Modelled from the spec: the request codes of `pcboven_usb.h` (the header is not
among the sources), one per control operation, plus any other code. -/
inductive ioctl_code where
  | PCBOVEN_IS_CONNECTED
  | PCBOVEN_SET_TEMPERATURE
  | PCBOVEN_ENABLE_FILAMENTS
  | PCBOVEN_DISABLE_FILAMENTS
  | PCBOVEN_GET_STATE
  | other (code : Nat)
deriving DecidableEq, Repr

/-- The part of a `struct usb_interface` the driver looks at: the device it belongs to
and the identifiers of its device descriptor. -/
structure usb_interface where
  handle : Nat
  idVendor : Nat
  idProduct : Nat
deriving DecidableEq, Repr

/-- The identifiers `PCBOVEN_USB_ID_VENDOR` and `PCBOVEN_USB_ID_PRODUCT` of the
header, which is not among the sources: they are taken as given. -/
structure usb_ids where
  vendor : Nat
  product : Nat
deriving DecidableEq, Repr

/-- The context right after `init_module`: `kzalloc` returns zeroed memory. -/
def init_context : driver_context :=
  { oven :=
      { probe_temp := 0, internal_temp := 0, fault_short_vcc := false,
        fault_short_gnd := false, fault_open_circuit := false,
        filament_top_on := false, filament_bottom_on := false,
        target_temp := 0, enable_filaments := false }
    usb_device := none
    async_queue := []
    transfer_buffer := List.replicate 9 0 }

/-! ## Helpers shared by the entry points -/

/-- The statement `if (queue) kill_fasync(&queue, SIGIO, POLL_IN);`. -/
def notify (queue : List Nat) : List Effect :=
  if queue.isEmpty then [] else [Effect.kill_fasync queue]

/-- Byte `i` of a buffer. -/
def byte_at (buf : List Nat) (i : Nat) : Nat := buf.getD i 0 % 256

/-- The 16-bit little-endian word at offset `i` of a buffer, as a bit pattern. -/
def word_at (buf : List Nat) (i : Nat) : Nat := byte_at buf i + 256 * byte_at buf (i + 1)

/-- A little-endian `int16_t` at offset `i` of a buffer. -/
def int16_at (buf : List Nat) (i : Nat) : Int := to_int16 (word_at buf i)

/-- The transfer buffer read through a `struct oven_usb_frame *`. -/
def read_frame (buf : List Nat) : oven_usb_frame :=
  { probe := int16_at buf 0
    internal := int16_at buf 2
    short_vcc := byte_at buf 4
    short_gnd := byte_at buf 5
    open_circuit := byte_at buf 6
    top_on := byte_at buf 7
    bottom_on := byte_at buf 8 }

/-- The C expression `!!b` on a byte. -/
def bangbang (b : Nat) : Bool := b != 0

/-! ## Entry points -/

/-- The three bytes `write_settings` stores in `out_buf`. -/
def out_buf (temp : Int) (filaments : Bool) : List Int :=
  [and_0xFF (shr_int temp 0), and_0xFF (shr_int temp 8), if filaments then 1 else 0]

/-- The function `write_settings`: the return value and the effects. -/
def write_settings (k : kernel) (usbdev : usb_device_ptr) (temp : Int) (filaments : Bool) :
    Int × List Effect :=
  if !k.kmalloc_ok then (-ENOMEM, [])
  else if !k.alloc_urb_ok then (-ENOMEM, [])
  else
    let result := k.submit_result
    if result ≠ 0 then (result, [Effect.submit_command usbdev (out_buf temp filaments) result])
    else (0, [Effect.submit_command usbdev (out_buf temp filaments) result])

/-- The completion handler `intr_callback` of the interrupt-in read: `status` and
`actual_length` are the fields of the URB, the received bytes are in the transfer
buffer of the context, `resubmit` is what `usb_submit_urb` returns at the end. -/
def intr_callback (context : driver_context) (status : Int) (actual_length : Nat)
    (resubmit : Int) : driver_context × List Effect :=
  if status = 0 then
    if actual_length ≥ sizeof_oven_usb_frame then
      let reading := read_frame context.transfer_buffer
      let oven := { context.oven with
        probe_temp := to_int16 (shr_int (shl_int reading.probe 2) 4)
        internal_temp := to_int16 (shr_int (shl_int reading.internal 4) 8)
        fault_short_vcc := bangbang reading.short_vcc
        fault_short_gnd := bangbang reading.short_gnd
        fault_open_circuit := bangbang reading.open_circuit
        filament_top_on := bangbang reading.top_on
        filament_bottom_on := bangbang reading.bottom_on }
      ({ context with oven := oven },
        notify context.async_queue ++ [Effect.submit_read resubmit])
    else (context, [Effect.submit_read resubmit])
  else (context, [Effect.submit_read resubmit])

/-- The function `oven_ioctl`: return value, context afterwards, effects.  `data` is
the `unsigned long` argument (a value for SET_TEMPERATURE, a user address for
GET_STATE). -/
def oven_ioctl (k : kernel) (context : driver_context) (code : ioctl_code) (data : Nat) :
    Int × driver_context × List Effect :=
  if code = ioctl_code.PCBOVEN_IS_CONNECTED then
    ((if context.usb_device ≠ none then 1 else 0), context, [])
  else
    match context.usb_device with
    | none => (-ENODEV, context, [])
    | some dev =>
      -- the statements after the switch, reached through `break`
      let send (context1 : driver_context) : Int × driver_context × List Effect :=
        if dev = usb_device_ptr.DUMMY_USB_DEVICE then (0, context1, [])
        else
          let r := write_settings k dev context1.oven.target_temp
            context1.oven.enable_filaments
          (r.1, context1, r.2)
      match code with
      | ioctl_code.PCBOVEN_SET_TEMPERATURE =>
        send { context with oven := { context.oven with
                target_temp := to_int16 (shl_ulong data 2) } }
      | ioctl_code.PCBOVEN_ENABLE_FILAMENTS =>
        send { context with oven := { context.oven with enable_filaments := true } }
      | ioctl_code.PCBOVEN_DISABLE_FILAMENTS =>
        send { context with oven := { context.oven with enable_filaments := false } }
      | ioctl_code.PCBOVEN_GET_STATE =>
        if !k.copy_ok then (-EFAULT, context, [])
        else (0, context, [Effect.copy_to_user data context.oven])
      | _ => (-ENOTTY, context, [])

/-- The sysfs store `enable_dummy_store`: `sscanf_val` is `some val` when
`sscanf(buf, "%d", &val)` returned 1. -/
def enable_dummy_store (context : driver_context) (sscanf_val : Option Int) (count : Nat) :
    Int × driver_context × List Effect :=
  match sscanf_val with
  | none => (-EINVAL, context, [])
  | some val =>
    if val ≠ 0 ∧ context.usb_device = none then
      let context1 := { context with usb_device := some usb_device_ptr.DUMMY_USB_DEVICE }
      (count, context1, notify context1.async_queue)
    else if val = 0 ∧ context.usb_device = some usb_device_ptr.DUMMY_USB_DEVICE then
      let context1 := { context with usb_device := none }
      (count, context1, notify context1.async_queue)
    else (count, context, [])

/-- The sysfs store `target_temp_store` of a bound interface: `usbdev` is the device of
the interface, `len` is `strlen(buf)`. -/
def target_temp_store (k : kernel) (context : driver_context) (usbdev : usb_device_ptr)
    (sscanf_val : Option Int) (len : Nat) : Int × driver_context × List Effect :=
  match sscanf_val with
  | none => (-EINVAL, context, [])
  | some val =>
    let context1 := { context with oven := { context.oven with target_temp := to_int16 val } }
    let r := write_settings k usbdev context1.oven.target_temp context1.oven.enable_filaments
    ((if r.1 ≠ 0 then r.1 else len), context1, r.2)

/-- The function `usb_probe`: `submit_result` is what `usb_submit_urb` returns for the
first interrupt-in read. -/
def usb_probe (ids : usb_ids) (context : driver_context) (intf : usb_interface)
    (submit_result : Int) : Int × driver_context × List Effect :=
  if context.usb_device ≠ none then (-ENODEV, context, [])
  else if intf.idVendor ≠ ids.vendor ∨ intf.idProduct ≠ ids.product then
    (-ENODEV, context, [])
  else
    let context1 := { context with usb_device := some (usb_device_ptr.real intf.handle) }
    if submit_result ≠ 0 then
      (-EFAULT, { context1 with usb_device := none }, [Effect.submit_read submit_result])
    else
      (0, context1, Effect.submit_read submit_result :: notify context1.async_queue)

/-- The function `usb_disconnect`, called with an interface whose data is the context. -/
def usb_disconnect (context : driver_context) : driver_context × List Effect :=
  let context1 := { context with usb_device := none }
  (context1, notify context1.async_queue)

/-! ## The connection identity seen by the control surface -/

/-- The three connection identities of the data model. -/
inductive DeviceConnection where
  | Disconnected
  | Connected (handle : Nat)
  | Simulated
deriving DecidableEq, Repr

/-- The connection identity a context stands for. -/
def connection (context : driver_context) : DeviceConnection :=
  match context.usb_device with
  | none => DeviceConnection.Disconnected
  | some usb_device_ptr.DUMMY_USB_DEVICE => DeviceConnection.Simulated
  | some (usb_device_ptr.real h) => DeviceConnection.Connected h

/-- The value of a `w`-bit two's complement sample given as a bit pattern. -/
def sign_extend (w : Nat) (x : Nat) : Int :=
  if x < 2 ^ (w - 1) then (x : Int) else (x : Int) - 2 ^ w

/-- The `width`-bit field of a 16-bit word that has `pad` padding bits below it. -/
def sample_bits (raw pad width : Nat) : Nat := (raw / 2 ^ pad) % 2 ^ width

/-- The decoder the command round trip is stated against (the driver has none): a
little-endian signed 16-bit value, then a nonzero test on the third byte. -/
def decode_command_bytes (bytes : List Int) : Option (Int × Bool) :=
  match bytes with
  | [lo, hi, flag] => some (to_int16 (lo + 256 * hi), decide (flag ≠ 0))
  | _ => none

/-- The number of SIGIO signals an effect list delivers to the subscriber `s`: each
`kill_fasync` call signals every entry of the queue it is given. -/
def signals_to (s : Nat) : List Effect → Nat
  | [] => 0
  | Effect.kill_fasync queue :: rest => queue.count s + signals_to s rest
  | _ :: rest => signals_to s rest

/-- The events that act on the connection identity. -/
inductive conn_event where
  /-- The USB core offers an interface: `usb_probe`. -/
  | on_connect (intf : usb_interface) (submit_result : Int)
  /-- The USB core takes the interface away: `usb_disconnect`. -/
  | on_disconnect
  /-- The operator writes `val` to the `enable_dummy` attribute; nonzero enables. -/
  | set_dummy (val : Int)
deriving DecidableEq, Repr

/-- The module as the USB core drives it: the one context (`static_context`) and the
interface bound to the driver, if any.  An interface is bound from the moment its
`usb_probe` returns 0 until its `usb_disconnect`; `usb_probe` attaches the context to it
with `usb_set_intfdata`, and the USB core detaches it when the probe fails and after the
disconnect, so the bound interface is the only one whose data pointer is the context. -/
structure module_state where
  static_context : driver_context
  bound : Option usb_interface
deriving DecidableEq, Repr

/-- The module right after `init_module`: the zeroed context, no interface bound. -/
def init_module_state : module_state := { static_context := init_context, bound := none }

/-- The call `usb_get_intfdata(intf)` at the head of `usb_disconnect`: the context when
an interface is bound, NULL when none is. -/
def usb_get_intfdata (s : module_state) : Option driver_context :=
  match s.bound with
  | none => none
  | some _ => some s.static_context

/-- The module after one event.  `usb_probe` binds the interface when it returns 0.
`usb_disconnect` reaches the context through `usb_get_intfdata`: with no interface bound
the pointer is NULL, the callback stores nothing and the module is as before. -/
def step (ids : usb_ids) (s : module_state) : conn_event → module_state
  | conn_event.on_connect intf r =>
    let res := usb_probe ids s.static_context intf r
    { static_context := res.2.1, bound := if res.1 = 0 then some intf else s.bound }
  | conn_event.on_disconnect =>
    match usb_get_intfdata s with
    | none => s
    | some context => { static_context := (usb_disconnect context).1, bound := none }
  | conn_event.set_dummy val =>
    { s with static_context := (enable_dummy_store s.static_context (some val) 1).2.1 }

/-- The module after a sequence of events, oldest first. -/
def run (ids : usb_ids) (s : module_state) (events : List conn_event) : module_state :=
  events.foldl (step ids) s

/-- A bound interface means a real device: the invariant of the module. -/
def bound_is_real (s : module_state) : Prop :=
  s.bound ≠ none → ∃ h, s.static_context.usb_device = some (usb_device_ptr.real h)

/-- The identifiers of the firmware's device descriptor (`firmware/src/descriptors.c`). -/
def firmware_ids : usb_ids := { vendor := 0x03EB, product := 0x3140 }

/-- A context used in concrete checks: disconnected, target 150, filaments enabled. -/
def sample_context : driver_context :=
  { init_context with
    oven := { init_context.oven with target_temp := 150, enable_filaments := true }
    async_queue := [7] }

/-- A kernel in which every call succeeds. -/
def kernel_ok : kernel :=
  { kmalloc_ok := true, alloc_urb_ok := true, submit_result := 0, copy_ok := true }

/-! ## Basic facts -/

theorem connection_disconnected_iff (context : driver_context) :
    connection context = DeviceConnection.Disconnected ↔ context.usb_device = none := by
  unfold connection
  rcases h : context.usb_device with _ | d
  · simp
  · cases d <;> simp

theorem connection_simulated_iff (context : driver_context) :
    connection context = DeviceConnection.Simulated ↔
      context.usb_device = some usb_device_ptr.DUMMY_USB_DEVICE := by
  unfold connection
  rcases h : context.usb_device with _ | d
  · simp
  · cases d <;> simp

theorem connection_connected_iff (context : driver_context) (h : Nat) :
    connection context = DeviceConnection.Connected h ↔
      context.usb_device = some (usb_device_ptr.real h) := by
  unfold connection
  rcases hd : context.usb_device with _ | d
  · simp
  · cases d <;> simp

theorem byte_at_lt (buf : List Nat) (i : Nat) : byte_at buf i < 256 :=
  Nat.mod_lt _ (by decide)

theorem word_at_lt (buf : List Nat) (i : Nat) : word_at buf i < 65536 := by
  have h0 := byte_at_lt buf i
  have h1 := byte_at_lt buf (i + 1)
  unfold word_at
  omega

/-- The context and the effects after a successful completion carrying a full frame. -/
theorem intr_callback_full (context : driver_context) (n : Nat) (r : Int)
    (h : n ≥ sizeof_oven_usb_frame) :
    intr_callback context 0 n r =
      ({ context with oven := { context.oven with
          probe_temp := to_int16 (shr_int (shl_int (int16_at context.transfer_buffer 0) 2) 4)
          internal_temp :=
            to_int16 (shr_int (shl_int (int16_at context.transfer_buffer 2) 4) 8)
          fault_short_vcc := bangbang (byte_at context.transfer_buffer 4)
          fault_short_gnd := bangbang (byte_at context.transfer_buffer 5)
          fault_open_circuit := bangbang (byte_at context.transfer_buffer 6)
          filament_top_on := bangbang (byte_at context.transfer_buffer 7)
          filament_bottom_on := bangbang (byte_at context.transfer_buffer 8) } },
        notify context.async_queue ++ [Effect.submit_read r]) := by
  simp [intr_callback, h, read_frame]

/-- The probe shifts `(raw << 2) >> 4` give the sign-extended upper 14 bits. -/
theorem decode_probe_eq (raw : Nat) (h : raw < 65536) :
    to_int16 (shr_int (shl_int (to_int16 raw) 2) 4) = sign_extend 14 (sample_bits raw 2 14) := by
  simp only [to_int16, shr_int, shl_int, to_int32, sign_extend, sample_bits]
  norm_num
  split <;> omega

/-- The internal shifts `(raw << 4) >> 8` give the sign-extended upper 12 bits. -/
theorem decode_internal_eq (raw : Nat) (h : raw < 65536) :
    to_int16 (shr_int (shl_int (to_int16 raw) 4) 8) = sign_extend 12 (sample_bits raw 4 12) := by
  simp only [to_int16, shr_int, shl_int, to_int32, sign_extend, sample_bits]
  norm_num
  split <;> omega

/-- The sign of a sign-extended sample is decided by its top bit. -/
theorem sign_extend_sign (w x : Nat) (hw : 0 < w) (hx : x < 2 ^ w) :
    (x.testBit (w - 1) = true → sign_extend w x < 0) ∧
    (x.testBit (w - 1) = false → 0 ≤ sign_extend w x) := by
  have hpow : 2 ^ w = 2 * 2 ^ (w - 1) := by
    obtain ⟨m, rfl⟩ : ∃ m, w = m + 1 := ⟨w - 1, by omega⟩
    simp [pow_succ, Nat.mul_comm]
  have hdiv : x / 2 ^ (w - 1) < 2 := by
    apply Nat.div_lt_of_lt_mul
    omega
  have hcast : ((2 : Int) ^ w) = 2 * ((2 ^ (w - 1) : Nat) : Int) := by
    have := congrArg (fun n : Nat => (n : Int)) hpow
    simpa using this
  rw [Nat.testBit_to_div_mod]
  unfold sign_extend
  constructor
  · intro hb
    have hb1 : x / 2 ^ (w - 1) % 2 = 1 := by simpa using hb
    have hge : 2 ^ (w - 1) ≤ x := by
      by_contra hlt
      have : x / 2 ^ (w - 1) = 0 := Nat.div_eq_of_lt (by omega)
      omega
    rw [if_neg (by omega)]
    rw [hcast]
    have : (x : Int) < 2 * ((2 ^ (w - 1) : Nat) : Int) := by exact_mod_cast (by omega : x < 2 * 2 ^ (w - 1))
    omega
  · intro hb
    have hb0 : ¬ (x / 2 ^ (w - 1) % 2 = 1) := by simpa using hb
    have hlt : x < 2 ^ (w - 1) := by
      by_contra hge
      have : 1 ≤ x / 2 ^ (w - 1) := (Nat.one_le_div_iff (by positivity)).mpr (by omega)
      omega
    rw [if_pos hlt]
    exact Int.ofNat_nonneg x

/-- With the invariant, a context without a real device has no interface bound. -/
theorem bound_none_of_not_real (s : module_state) (hinv : bound_is_real s)
    (h : ∀ n, s.static_context.usb_device ≠ some (usb_device_ptr.real n)) :
    s.bound = none := by
  by_contra hb
  obtain ⟨n, hn⟩ := hinv hb
  exact h n hn

/-- Every event keeps the invariant. -/
theorem step_bound_is_real (ids : usb_ids) (s : module_state) (e : conn_event)
    (hinv : bound_is_real s) : bound_is_real (step ids s e) := by
  cases e with
  | on_connect intf r =>
    by_cases hd : s.static_context.usb_device = none
    · have hb : s.bound = none := bound_none_of_not_real s hinv (by simp [hd])
      by_cases hid : intf.idVendor ≠ ids.vendor ∨ intf.idProduct ≠ ids.product
      · intro hne
        exfalso
        apply hne
        simp [step, usb_probe, hd, hid, hb, ENODEV]
      · by_cases hr : r = 0
        · intro _
          exact ⟨intf.handle, by simp [step, usb_probe, hd, hid, hr]⟩
        · intro hne
          exfalso
          apply hne
          simp [step, usb_probe, hd, hid, hr, hb, EFAULT]
    · have hs : step ids s (conn_event.on_connect intf r) = s := by
        simp [step, usb_probe, hd, ENODEV]
      rw [hs]
      exact hinv
  | on_disconnect =>
    rcases hb : s.bound with _ | i
    · have hs : step ids s conn_event.on_disconnect = s := by
        simp [step, usb_get_intfdata, hb]
      rw [hs]
      exact hinv
    · intro hne
      exfalso
      apply hne
      simp [step, usb_get_intfdata, hb]
  | set_dummy val =>
    by_cases hchg : (enable_dummy_store s.static_context (some val) 1).2.1 = s.static_context
    · have hs : step ids s (conn_event.set_dummy val) = s := by
        simp [step, hchg]
      rw [hs]
      exact hinv
    · have hb : s.bound = none := by
        apply bound_none_of_not_real s hinv
        intro n hn
        apply hchg
        simp [enable_dummy_store, hn]
      intro hne
      exfalso
      apply hne
      simp [step, hb]

/-- Every sequence of events keeps the invariant. -/
theorem run_bound_is_real (ids : usb_ids) (events : List conn_event) (s : module_state)
    (hinv : bound_is_real s) : bound_is_real (run ids s events) := by
  induction events generalizing s with
  | nil => exact hinv
  | cons e rest ih => exact ih (step ids s e) (step_bound_is_real ids s e hinv)

/-- The invariant holds after `init_module`. -/
theorem init_bound_is_real : bound_is_real init_module_state := by
  intro h
  exact absurd rfl h

/-- What one event does to the connection identity, from a module that satisfies the
invariant. -/
theorem step_connection (ids : usb_ids) (s : module_state) (e : conn_event)
    (hinv : bound_is_real s) :
    (∀ h, connection s.static_context = DeviceConnection.Connected h →
      connection (step ids s e).static_context = DeviceConnection.Connected h ∨
      connection (step ids s e).static_context = DeviceConnection.Disconnected) ∧
    (connection s.static_context ≠ DeviceConnection.Simulated →
      connection (step ids s e).static_context = DeviceConnection.Simulated →
      ∃ val, val ≠ 0 ∧ e = conn_event.set_dummy val) ∧
    (connection s.static_context = DeviceConnection.Simulated →
      connection (step ids s e).static_context ≠ DeviceConnection.Simulated →
      e = conn_event.set_dummy 0) ∧
    (connection s.static_context = DeviceConnection.Simulated →
      step ids s conn_event.on_disconnect = s) := by
  have hsim : s.static_context.usb_device = some usb_device_ptr.DUMMY_USB_DEVICE →
      step ids s conn_event.on_disconnect = s := by
    intro hc
    have hb : s.bound = none := bound_none_of_not_real s hinv (by simp [hc])
    simp [step, usb_get_intfdata, hb]
  simp only [ne_eq, connection_simulated_iff, connection_connected_iff,
    connection_disconnected_iff]
  refine ⟨?_, ?_, ?_, hsim⟩
  · intro h hc
    cases e with
    | on_connect intf r =>
      left
      simp [step, usb_probe, hc]
    | on_disconnect =>
      rcases hb : s.bound with _ | i
      · left
        rw [show step ids s conn_event.on_disconnect = s by
          simp [step, usb_get_intfdata, hb]]
        exact hc
      · right
        simp [step, usb_get_intfdata, hb, usb_disconnect]
    | set_dummy val =>
      left
      simp [step, enable_dummy_store, hc]
  · intro hc hs
    cases e with
    | on_connect intf r =>
      exfalso
      revert hs
      simp only [step, usb_probe]
      split_ifs <;> simp_all
    | on_disconnect =>
      exfalso
      rcases hb : s.bound with _ | i
      · rw [show step ids s conn_event.on_disconnect = s by
          simp [step, usb_get_intfdata, hb]] at hs
        exact hc hs
      · simp [step, usb_get_intfdata, hb, usb_disconnect] at hs
    | set_dummy val =>
      refine ⟨val, ?_, rfl⟩
      intro hv
      revert hs
      simp only [step, enable_dummy_store]
      split_ifs <;> simp_all
  · intro hc hs
    cases e with
    | on_connect intf r =>
      exfalso
      apply hs
      simp [step, usb_probe, hc]
    | on_disconnect =>
      exfalso
      apply hs
      rw [hsim hc]
      exact hc
    | set_dummy val =>
      by_cases hv : val = 0
      · rw [hv]
      · exfalso
        apply hs
        simp [step, enable_dummy_store, hc, hv]

/-! ## Control interface: get_state and the disconnected guard -/

/-- C1 (counterexample): in the disconnected start context GET_STATE does not succeed:
it returns -ENODEV (-19) and copies no snapshot to the caller. -/
theorem get_state_disconnected_fails :
    connection sample_context = DeviceConnection.Disconnected ∧
    oven_ioctl kernel_ok sample_context ioctl_code.PCBOVEN_GET_STATE 4096
      = (-19, sample_context, []) := by
  decide

/-- C1 (amended): GET_STATE never changes the context; while Disconnected it returns
-ENODEV and copies nothing; while Connected or Simulated it copies the current oven
state (target_temp and enable_filaments included) to the caller and returns 0 when the
copy goes through, and returns -EFAULT when the copy faults. -/
theorem get_state_by_connection (k : kernel) (context : driver_context) (data : Nat) :
    (connection context = DeviceConnection.Disconnected →
      oven_ioctl k context ioctl_code.PCBOVEN_GET_STATE data = (-ENODEV, context, [])) ∧
    (connection context ≠ DeviceConnection.Disconnected → k.copy_ok = true →
      oven_ioctl k context ioctl_code.PCBOVEN_GET_STATE data
        = (0, context, [Effect.copy_to_user data context.oven])) ∧
    (connection context ≠ DeviceConnection.Disconnected → k.copy_ok = false →
      oven_ioctl k context ioctl_code.PCBOVEN_GET_STATE data = (-EFAULT, context, [])) := by
  simp only [ne_eq, connection_disconnected_iff]
  refine ⟨fun h => ?_, fun h hk => ?_, fun h hk => ?_⟩
  · simp [oven_ioctl, h]
  · obtain ⟨d, hd⟩ := Option.ne_none_iff_exists'.mp h
    simp [oven_ioctl, hd, hk]
  · obtain ⟨d, hd⟩ := Option.ne_none_iff_exists'.mp h
    simp [oven_ioctl, hd, hk]

/-- C1 (amended), checked on a simulated and on a disconnected context. -/
theorem get_state_by_connection_witness :
    oven_ioctl kernel_ok { sample_context with
        usb_device := some usb_device_ptr.DUMMY_USB_DEVICE } ioctl_code.PCBOVEN_GET_STATE 4096
      = (0, { sample_context with usb_device := some usb_device_ptr.DUMMY_USB_DEVICE },
          [Effect.copy_to_user 4096 sample_context.oven]) ∧
    oven_ioctl kernel_ok sample_context ioctl_code.PCBOVEN_GET_STATE 4096
      = (-ENODEV, sample_context, []) :=
  ⟨(get_state_by_connection kernel_ok
      { sample_context with usb_device := some usb_device_ptr.DUMMY_USB_DEVICE } 4096).2.1
      (by decide) (by decide),
   (get_state_by_connection kernel_ok sample_context 4096).1 (by decide)⟩

/-- C2: while Disconnected, SET_TEMPERATURE (any value), ENABLE_FILAMENTS and
DISABLE_FILAMENTS each return -ENODEV, leave the whole context as it was and have no
effect at all (no command is submitted). -/
theorem disconnected_commands_rejected (k : kernel) (context : driver_context) (v : Nat)
    (h : connection context = DeviceConnection.Disconnected) :
    oven_ioctl k context ioctl_code.PCBOVEN_SET_TEMPERATURE v = (-ENODEV, context, []) ∧
    oven_ioctl k context ioctl_code.PCBOVEN_ENABLE_FILAMENTS v = (-ENODEV, context, []) ∧
    oven_ioctl k context ioctl_code.PCBOVEN_DISABLE_FILAMENTS v = (-ENODEV, context, []) := by
  rw [connection_disconnected_iff] at h
  simp [oven_ioctl, h]

/-- C2, checked for set_target_temperature(200) on a disconnected context whose target
is 150: the call returns -19 and the target is still 150. -/
theorem disconnected_commands_rejected_witness :
    oven_ioctl kernel_ok sample_context ioctl_code.PCBOVEN_SET_TEMPERATURE 200
      = (-19, sample_context, []) ∧
    (oven_ioctl kernel_ok sample_context
      ioctl_code.PCBOVEN_SET_TEMPERATURE 200).2.1.oven.target_temp = 150 :=
  ⟨(disconnected_commands_rejected kernel_ok sample_context 200 (by decide)).1, by decide⟩

/-! ## Telemetry completion -/

/-- C3: on a full successful frame the stored probe_temp is the sign extension of the
14-bit sample held in bits 15..2 of the raw probe word (2 padding bits below it): it is
negative when the top bit of the sample is set and non-negative when it is clear, and it
fits signed 16 bits.  The same holds for internal_temp and the 12-bit sample in bits
15..4 of the raw internal word. -/
theorem telemetry_sign_extension (context : driver_context) (n : Nat) (r : Int)
    (h : n ≥ sizeof_oven_usb_frame) :
    (((intr_callback context 0 n r).1.oven.probe_temp
        = sign_extend 14 (sample_bits (word_at context.transfer_buffer 0) 2 14)) ∧
      ((sample_bits (word_at context.transfer_buffer 0) 2 14).testBit 13 = true →
        (intr_callback context 0 n r).1.oven.probe_temp < 0) ∧
      ((sample_bits (word_at context.transfer_buffer 0) 2 14).testBit 13 = false →
        0 ≤ (intr_callback context 0 n r).1.oven.probe_temp)) ∧
    (((intr_callback context 0 n r).1.oven.internal_temp
        = sign_extend 12 (sample_bits (word_at context.transfer_buffer 2) 4 12)) ∧
      ((sample_bits (word_at context.transfer_buffer 2) 4 12).testBit 11 = true →
        (intr_callback context 0 n r).1.oven.internal_temp < 0) ∧
      ((sample_bits (word_at context.transfer_buffer 2) 4 12).testBit 11 = false →
        0 ≤ (intr_callback context 0 n r).1.oven.internal_temp)) := by
  rw [intr_callback_full context n r h]
  simp only [int16_at]
  rw [decode_probe_eq _ (word_at_lt _ _), decode_internal_eq _ (word_at_lt _ _)]
  have hp : sample_bits (word_at context.transfer_buffer 0) 2 14 < 2 ^ 14 :=
    Nat.mod_lt _ (by decide)
  have hi : sample_bits (word_at context.transfer_buffer 2) 4 12 < 2 ^ 12 :=
    Nat.mod_lt _ (by decide)
  exact ⟨⟨rfl, sign_extend_sign 14 _ (by decide) hp⟩, ⟨rfl, sign_extend_sign 12 _ (by decide) hi⟩⟩

/-- C3, checked on the frame FC FF F0 FF 00 00 00 01 00: the probe word 0xFFFC carries
the sample 0x3FFF (top bit set) and decodes to -1; so does the internal word 0xFFF0. -/
theorem telemetry_sign_extension_witness :
    (intr_callback { init_context with transfer_buffer := [252, 255, 240, 255, 0, 0, 0, 1, 0] }
      0 9 0).1.oven.probe_temp
      = sign_extend 14 (sample_bits (word_at [252, 255, 240, 255, 0, 0, 0, 1, 0] 0) 2 14) ∧
    sign_extend 14 (sample_bits (word_at [252, 255, 240, 255, 0, 0, 0, 1, 0] 0) 2 14) = -1 :=
  ⟨(telemetry_sign_extension
      { init_context with transfer_buffer := [252, 255, 240, 255, 0, 0, 0, 1, 0] }
      9 0 (by decide)).1.1, by decide⟩

/-- C4: a successful completion that delivers fewer than 9 bytes leaves the whole
context (oven state and connection included) as it was, signals no subscriber, and
resubmits the read: the only effect is one `usb_submit_urb` on the read URB. -/
theorem short_frame_dropped (context : driver_context) (n : Nat) (r : Int)
    (h : n < sizeof_oven_usb_frame) :
    intr_callback context 0 n r = (context, [Effect.submit_read r]) := by
  have h9 : ¬ (n ≥ sizeof_oven_usb_frame) := by omega
  simp [intr_callback, h9]

/-- C4, checked on an 8-byte completion with one subscriber registered. -/
theorem short_frame_dropped_witness :
    intr_callback { sample_context with transfer_buffer := [1, 2, 3, 4, 5, 6, 7, 8, 0] } 0 8 0
      = ({ sample_context with transfer_buffer := [1, 2, 3, 4, 5, 6, 7, 8, 0] },
          [Effect.submit_read 0]) :=
  short_frame_dropped { sample_context with transfer_buffer := [1, 2, 3, 4, 5, 6, 7, 8, 0] }
    8 0 (by decide)

/-- C5: whatever the completion (any status, any length), the callback keeps
target_temp, enable_filaments and the connection; on a successful completion of at least
9 bytes the seven sensor fields are those of the frame in the transfer buffer: the two
temperatures through the shift pairs, each flag true exactly when its byte is nonzero. -/
theorem telemetry_frame_effect (context : driver_context) (status : Int) (n : Nat) (r : Int) :
    (intr_callback context status n r).1.oven.target_temp = context.oven.target_temp ∧
    (intr_callback context status n r).1.oven.enable_filaments
      = context.oven.enable_filaments ∧
    (intr_callback context status n r).1.usb_device = context.usb_device ∧
    connection (intr_callback context status n r).1 = connection context ∧
    (status = 0 → n ≥ sizeof_oven_usb_frame →
      (intr_callback context status n r).1.oven.probe_temp
        = to_int16 (shr_int (shl_int (int16_at context.transfer_buffer 0) 2) 4) ∧
      (intr_callback context status n r).1.oven.internal_temp
        = to_int16 (shr_int (shl_int (int16_at context.transfer_buffer 2) 4) 8) ∧
      ((intr_callback context status n r).1.oven.fault_short_vcc = true
        ↔ byte_at context.transfer_buffer 4 ≠ 0) ∧
      ((intr_callback context status n r).1.oven.fault_short_gnd = true
        ↔ byte_at context.transfer_buffer 5 ≠ 0) ∧
      ((intr_callback context status n r).1.oven.fault_open_circuit = true
        ↔ byte_at context.transfer_buffer 6 ≠ 0) ∧
      ((intr_callback context status n r).1.oven.filament_top_on = true
        ↔ byte_at context.transfer_buffer 7 ≠ 0) ∧
      ((intr_callback context status n r).1.oven.filament_bottom_on = true
        ↔ byte_at context.transfer_buffer 8 ≠ 0)) := by
  by_cases hs : status = 0
  · subst hs
    by_cases hn : n ≥ sizeof_oven_usb_frame
    · rw [intr_callback_full context n r hn]
      simp [connection, bangbang]
    · simp [intr_callback, hn]
  · simp [intr_callback, hs]

/-- C5, checked on the frame 00 40 00 10 00 00 00 01 00 received while the target is 150
and the filaments are enabled: probe 4096, internal 256, only filament_top_on set. -/
theorem telemetry_frame_effect_witness :
    (intr_callback { sample_context with transfer_buffer := [0, 64, 0, 16, 0, 0, 0, 1, 0] }
      0 9 0).1.oven
      = { probe_temp := 4096, internal_temp := 256, fault_short_vcc := false,
          fault_short_gnd := false, fault_open_circuit := false, filament_top_on := true,
          filament_bottom_on := false, target_temp := 150, enable_filaments := true } ∧
    ((intr_callback { sample_context with transfer_buffer := [0, 64, 0, 16, 0, 0, 0, 1, 0] }
      0 9 0).1.oven.filament_top_on = true
      ↔ byte_at [0, 64, 0, 16, 0, 0, 0, 1, 0] 7 ≠ 0) :=
  ⟨by decide,
   ((telemetry_frame_effect
      { sample_context with transfer_buffer := [0, 64, 0, 16, 0, 0, 0, 1, 0] } 0 9 0).2.2.2.2
      rfl (by decide)).2.2.2.2.2.1⟩

/-! ## Command encoding -/

/-- C6: for a signed 16-bit target t and a flag f the buffer filled by `write_settings`
is [t mod 256, (t >> 8) mod 256, 1 or 0]; read back as a little-endian signed 16-bit
value and a nonzero test it gives (t, f); and when both allocations succeed these are the
bytes of the one bulk transfer that is submitted. -/
theorem command_round_trip (k : kernel) (dev : usb_device_ptr) (t : Int) (f : Bool)
    (hlo : -32768 ≤ t) (hhi : t ≤ 32767) :
    out_buf t f = [t % 256, t / 256 % 256, if f then 1 else 0] ∧
    decode_command_bytes (out_buf t f) = some (t, f) ∧
    (k.kmalloc_ok = true → k.alloc_urb_ok = true →
      (write_settings k dev t f).2 = [Effect.submit_command dev (out_buf t f) k.submit_result]) := by
  refine ⟨by simp [out_buf, and_0xFF, shr_int], ?_, ?_⟩
  · have ht : to_int16 (t % 256 + 256 * (t / 256 % 256)) = t := by
      unfold to_int16
      omega
    cases f <;> simp [out_buf, and_0xFF, shr_int, decode_command_bytes, ht]
  · intro h1 h2
    by_cases hr : k.submit_result = 0 <;> simp [write_settings, h1, h2, hr]

/-- C6, checked on t = -2 with the filaments enabled: the bytes are FE FF 01. -/
theorem command_round_trip_witness :
    out_buf (-2) true = [254, 255, 1] ∧
    decode_command_bytes (out_buf (-2) true) = some (-2, true) :=
  ⟨by decide,
   (command_round_trip kernel_ok (usb_device_ptr.real 1) (-2) true
      (by decide) (by decide)).2.1⟩

/-! ## The simulated device -/

/-- C7: while Connected to a real device, writing a nonzero value to `enable_dummy`
changes nothing: the context (connection to the same device and oven state included)
is as before and there is no effect, so no subscriber is signalled; the store returns
`count` like every accepted write. -/
theorem set_dummy_keeps_live_connection (context : driver_context) (val : Int) (count h : Nat)
    (hc : connection context = DeviceConnection.Connected h) (hv : val ≠ 0) :
    enable_dummy_store context (some val) count = ((count : Int), context, []) ∧
    connection (enable_dummy_store context (some val) count).2.1
      = DeviceConnection.Connected h := by
  have hd := (connection_connected_iff context h).mp hc
  have h1 : enable_dummy_store context (some val) count = ((count : Int), context, []) := by
    simp [enable_dummy_store, hd, hv]
  exact ⟨h1, by rw [h1]; exact hc⟩

/-- C7, checked on a context bound to device 3 with one subscriber. -/
theorem set_dummy_keeps_live_connection_witness :
    enable_dummy_store { sample_context with usb_device := some (usb_device_ptr.real 3) }
      (some 1) 2
      = (2, { sample_context with usb_device := some (usb_device_ptr.real 3) }, []) :=
  (set_dummy_keeps_live_connection
    { sample_context with usb_device := some (usb_device_ptr.real 3) } 1 2 3
    (by decide) (by decide)).1

/-- C8: while Disconnected, writing a nonzero value to `enable_dummy` returns `count`,
makes the connection Simulated, after which IS_CONNECTED returns 1; the oven state and
the subscriber queue are as before; `kill_fasync` is called exactly once when the queue
is not empty, so every subscriber of a duplicate-free queue gets exactly one signal. -/
theorem toggle_dummy_from_disconnected (k : kernel) (context : driver_context) (val : Int)
    (count : Nat) (hc : connection context = DeviceConnection.Disconnected) (hv : val ≠ 0) :
    (enable_dummy_store context (some val) count).1 = (count : Int) ∧
    connection (enable_dummy_store context (some val) count).2.1
      = DeviceConnection.Simulated ∧
    (oven_ioctl k (enable_dummy_store context (some val) count).2.1
      ioctl_code.PCBOVEN_IS_CONNECTED 0).1 = 1 ∧
    (enable_dummy_store context (some val) count).2.1.oven = context.oven ∧
    (enable_dummy_store context (some val) count).2.1.async_queue = context.async_queue ∧
    (context.async_queue ≠ [] → (enable_dummy_store context (some val) count).2.2
      = [Effect.kill_fasync context.async_queue]) ∧
    (∀ s, s ∈ context.async_queue → context.async_queue.Nodup →
      signals_to s (enable_dummy_store context (some val) count).2.2 = 1) := by
  have hd := (connection_disconnected_iff context).mp hc
  have h1 : enable_dummy_store context (some val) count
      = ((count : Int), { context with usb_device := some usb_device_ptr.DUMMY_USB_DEVICE },
          notify context.async_queue) := by
    simp [enable_dummy_store, hd, hv]
  rw [h1]
  refine ⟨rfl, rfl, by simp [oven_ioctl], rfl, rfl, ?_, ?_⟩
  · intro hq
    simp [notify, hq]
  · intro s hs hnd
    have hq : context.async_queue ≠ [] := List.ne_nil_of_mem hs
    simp [notify, hq, signals_to, List.count_eq_one_of_mem hnd hs]

/-- C8, checked on the disconnected context whose only subscriber is 7. -/
theorem toggle_dummy_from_disconnected_witness :
    connection (enable_dummy_store sample_context (some 1) 2).2.1
      = DeviceConnection.Simulated ∧
    signals_to 7 (enable_dummy_store sample_context (some 1) 2).2.2 = 1 :=
  ⟨(toggle_dummy_from_disconnected kernel_ok sample_context 1 2 (by decide) (by decide)).2.1,
   (toggle_dummy_from_disconnected kernel_ok sample_context 1 2 (by decide)
      (by decide)).2.2.2.2.2.2 7 (by decide) (by decide)⟩

/-! ## Connection state machine -/

/-- C9: after every sequence of events (on_connect, on_disconnect, set_dummy with a
nonzero or zero value) from the start of the module, the next event moves a Connected
context only to itself or to Disconnected, never to Simulated; it enters Simulated only
if it is set_dummy with a nonzero value and leaves Simulated only if it is set_dummy(0);
on_connect while Connected or Simulated returns -ENODEV and changes nothing; on_disconnect
while Simulated changes nothing, so no hardware event enters or leaves Simulated. -/
theorem connection_state_machine (ids : usb_ids) (events : List conn_event) (e : conn_event) :
    (∀ h, connection (run ids init_module_state events).static_context
        = DeviceConnection.Connected h →
      connection (step ids (run ids init_module_state events) e).static_context
        = DeviceConnection.Connected h ∨
      connection (step ids (run ids init_module_state events) e).static_context
        = DeviceConnection.Disconnected) ∧
    (connection (run ids init_module_state events).static_context
        ≠ DeviceConnection.Simulated →
      connection (step ids (run ids init_module_state events) e).static_context
        = DeviceConnection.Simulated →
      ∃ val, val ≠ 0 ∧ e = conn_event.set_dummy val) ∧
    (connection (run ids init_module_state events).static_context
        = DeviceConnection.Simulated →
      connection (step ids (run ids init_module_state events) e).static_context
        ≠ DeviceConnection.Simulated →
      e = conn_event.set_dummy 0) ∧
    (∀ intf r, connection (run ids init_module_state events).static_context
        ≠ DeviceConnection.Disconnected →
      usb_probe ids (run ids init_module_state events).static_context intf r
        = (-ENODEV, (run ids init_module_state events).static_context, []) ∧
      step ids (run ids init_module_state events) (conn_event.on_connect intf r)
        = run ids init_module_state events) ∧
    (connection (run ids init_module_state events).static_context
        = DeviceConnection.Simulated →
      step ids (run ids init_module_state events) conn_event.on_disconnect
        = run ids init_module_state events) := by
  have hinv := run_bound_is_real ids events init_module_state init_bound_is_real
  obtain ⟨h1, h2, h3, h4⟩ := step_connection ids (run ids init_module_state events) e hinv
  refine ⟨h1, h2, h3, ?_, h4⟩
  intro intf r hc
  rw [ne_eq, connection_disconnected_iff] at hc
  constructor
  · simp [usb_probe, hc]
  · simp [step, usb_probe, hc, ENODEV]

/-- C9, checked on two runs: once the device with the firmware's identifiers is bound
the context is Connected to it and enabling the simulated device keeps it so; once the
simulated device is enabled, a disconnect changes nothing and the context stays
Simulated. -/
theorem connection_state_machine_witness :
    connection (run firmware_ids init_module_state
      [conn_event.on_connect { handle := 3, idVendor := 0x03EB, idProduct := 0x3140 } 0]
      ).static_context = DeviceConnection.Connected 3 ∧
    (connection (step firmware_ids (run firmware_ids init_module_state
        [conn_event.on_connect { handle := 3, idVendor := 0x03EB, idProduct := 0x3140 } 0])
        (conn_event.set_dummy 1)).static_context = DeviceConnection.Connected 3 ∨
      connection (step firmware_ids (run firmware_ids init_module_state
        [conn_event.on_connect { handle := 3, idVendor := 0x03EB, idProduct := 0x3140 } 0])
        (conn_event.set_dummy 1)).static_context = DeviceConnection.Disconnected) ∧
    connection (run firmware_ids init_module_state
      [conn_event.set_dummy 1]).static_context = DeviceConnection.Simulated ∧
    step firmware_ids (run firmware_ids init_module_state [conn_event.set_dummy 1])
      conn_event.on_disconnect = run firmware_ids init_module_state [conn_event.set_dummy 1] ∧
    connection (run firmware_ids init_module_state
      [conn_event.on_connect { handle := 3, idVendor := 0x03EB, idProduct := 0x3140 } 0,
       conn_event.on_disconnect]).static_context = DeviceConnection.Disconnected :=
  ⟨by decide,
   (connection_state_machine firmware_ids
      [conn_event.on_connect { handle := 3, idVendor := 0x03EB, idProduct := 0x3140 } 0]
      (conn_event.set_dummy 1)).1 3 (by decide),
   by decide,
   (connection_state_machine firmware_ids [conn_event.set_dummy 1]
      conn_event.on_disconnect).2.2.2.2 (by decide),
   by decide⟩

/-! ## Control interface: commands while a device is present -/

/-- C10 (counterexample): Connected to device 3, SET_TEMPERATURE with a failing
`kmalloc` stores the new target (4 * 50 = 200) and returns -ENOMEM (-12) without
submitting any command. -/
theorem connected_command_not_submitted :
    connection { sample_context with usb_device := some (usb_device_ptr.real 3) }
      = DeviceConnection.Connected 3 ∧
    oven_ioctl { kernel_ok with kmalloc_ok := false }
      { sample_context with usb_device := some (usb_device_ptr.real 3) }
      ioctl_code.PCBOVEN_SET_TEMPERATURE 50
      = (-12, { sample_context with
                  usb_device := some (usb_device_ptr.real 3)
                  oven := { sample_context.oven with target_temp := 200 } }, []) := by
  decide

/-- C10 (amended): while not Disconnected, SET_TEMPERATURE, ENABLE_FILAMENTS and
DISABLE_FILAMENTS change only their own field of the context (target_temp, respectively
enable_filaments := true / false); then, if Simulated, they return 0 with no effect; if
Connected and both allocations succeed, the only effect is one submitted command to the
bound device whose bytes are the buffer built from the stored target_temp and
enable_filaments, and the return value is that of the submission; if Connected and an
allocation fails, they return -ENOMEM with no effect. -/
theorem commands_with_device (k : kernel) (context : driver_context) (code : ioctl_code)
    (v : Nat) (hc : connection context ≠ DeviceConnection.Disconnected)
    (hcode : code = ioctl_code.PCBOVEN_SET_TEMPERATURE ∨
      code = ioctl_code.PCBOVEN_ENABLE_FILAMENTS ∨
      code = ioctl_code.PCBOVEN_DISABLE_FILAMENTS) :
    ((code = ioctl_code.PCBOVEN_SET_TEMPERATURE →
        (oven_ioctl k context code v).2.1 = { context with oven := { context.oven with
          target_temp := to_int16 (shl_ulong v 2) } }) ∧
      (code = ioctl_code.PCBOVEN_ENABLE_FILAMENTS →
        (oven_ioctl k context code v).2.1 = { context with oven := { context.oven with
          enable_filaments := true } }) ∧
      (code = ioctl_code.PCBOVEN_DISABLE_FILAMENTS →
        (oven_ioctl k context code v).2.1 = { context with oven := { context.oven with
          enable_filaments := false } })) ∧
    (connection context = DeviceConnection.Simulated →
      (oven_ioctl k context code v).1 = 0 ∧ (oven_ioctl k context code v).2.2 = []) ∧
    (∀ h, connection context = DeviceConnection.Connected h →
      k.kmalloc_ok = true → k.alloc_urb_ok = true →
      (oven_ioctl k context code v).1 = k.submit_result ∧
      (oven_ioctl k context code v).2.2 = [Effect.submit_command (usb_device_ptr.real h)
        (out_buf (oven_ioctl k context code v).2.1.oven.target_temp
          (oven_ioctl k context code v).2.1.oven.enable_filaments) k.submit_result]) ∧
    (∀ h, connection context = DeviceConnection.Connected h →
      k.kmalloc_ok = false ∨ k.alloc_urb_ok = false →
      (oven_ioctl k context code v).1 = -ENOMEM ∧ (oven_ioctl k context code v).2.2 = []) := by
  simp only [ne_eq, connection_simulated_iff, connection_connected_iff,
    connection_disconnected_iff] at hc ⊢
  obtain ⟨d, hd⟩ := Option.ne_none_iff_exists'.mp hc
  refine ⟨?_, ?_, ?_, ?_⟩
  · refine ⟨?_, ?_, ?_⟩ <;> intro h <;> subst h <;> cases d <;>
      simp [oven_ioctl, hd]
  · intro hs
    rw [hs] at hd
    cases hd
    rcases hcode with h | h | h <;> subst h <;> simp [oven_ioctl, hs]
  · intro h hr h1 h2
    by_cases h0 : k.submit_result = 0 <;>
    rcases hcode with hcd | hcd | hcd <;> subst hcd <;>
      simp [oven_ioctl, hr, write_settings, h1, h2, h0]
  · intro h hr hfail
    rcases hfail with h1 | h1 <;>
    rcases hcode with hcd | hcd | hcd <;> subst hcd <;>
      simp [oven_ioctl, hr, write_settings, h1]

/-- C10 (amended), checked for SET_TEMPERATURE 50 on a context bound to device 3: the
target becomes 200 and the one command carries C8 00 01. -/
theorem commands_with_device_witness :
    (oven_ioctl kernel_ok { sample_context with usb_device := some (usb_device_ptr.real 3) }
      ioctl_code.PCBOVEN_SET_TEMPERATURE 50).2.2
      = [Effect.submit_command (usb_device_ptr.real 3)
          (out_buf (oven_ioctl kernel_ok
            { sample_context with usb_device := some (usb_device_ptr.real 3) }
            ioctl_code.PCBOVEN_SET_TEMPERATURE 50).2.1.oven.target_temp
            (oven_ioctl kernel_ok
            { sample_context with usb_device := some (usb_device_ptr.real 3) }
            ioctl_code.PCBOVEN_SET_TEMPERATURE 50).2.1.oven.enable_filaments) 0] ∧
    out_buf 200 true = [200, 0, 1] :=
  ⟨((commands_with_device kernel_ok
      { sample_context with usb_device := some (usb_device_ptr.real 3) }
      ioctl_code.PCBOVEN_SET_TEMPERATURE 50 (by decide) (Or.inl rfl)).2.2.1 3
      (by decide) rfl rfl).2, by decide⟩

/-! ## The two entry points for the target temperature -/

/-- The ioctl store `target_temp = data << 2` keeps the low 16 bits of four times the
argument: the 64-bit wrap of the shift does not show after the conversion. -/
theorem to_int16_shl_ulong (data : Nat) :
    to_int16 ((shl_ulong data 2 : Nat) : Int) = to_int16 (4 * (data : Int)) := by
  simp only [to_int16, shl_ulong]
  norm_num
  omega

/-- C11: on a context with a device present (where SET_TEMPERATURE gets past the
NULL guard), the ioctl stores (data << 2) truncated to signed 16 bits, the sysfs store
`target_temp_store` stores the scanned value truncated to signed 16 bits, unshifted;
hence for every signed 16-bit v other than 0, handed to the ioctl in the low 16 bits of
its argument and to the sysfs store as the scanned number, the sysfs store leaves v and
the ioctl leaves a different target_temp. -/
theorem target_temp_units_disagree (k1 k2 : kernel) (context : driver_context)
    (usbdev : usb_device_ptr) (len : Nat)
    (hc : connection context ≠ DeviceConnection.Disconnected) :
    (∀ data : Nat,
      (oven_ioctl k1 context ioctl_code.PCBOVEN_SET_TEMPERATURE data).2.1.oven.target_temp
        = to_int16 (4 * (data : Int))) ∧
    (∀ val : Int,
      (target_temp_store k2 context usbdev (some val) len).2.1.oven.target_temp
        = to_int16 val) ∧
    (∀ (v : Int) (data : Nat), -32768 ≤ v → v ≤ 32767 → v ≠ 0 →
      (data : Int) % 65536 = v % 65536 →
      (target_temp_store k2 context usbdev (some v) len).2.1.oven.target_temp = v ∧
      (oven_ioctl k1 context ioctl_code.PCBOVEN_SET_TEMPERATURE data).2.1.oven.target_temp
        ≠ (target_temp_store k2 context usbdev (some v) len).2.1.oven.target_temp) := by
  rw [ne_eq, connection_disconnected_iff] at hc
  obtain ⟨d, hd⟩ := Option.ne_none_iff_exists'.mp hc
  have hio : ∀ data : Nat,
      (oven_ioctl k1 context ioctl_code.PCBOVEN_SET_TEMPERATURE data).2.1.oven.target_temp
        = to_int16 (4 * (data : Int)) := by
    intro data
    rw [← to_int16_shl_ulong]
    cases d <;> simp [oven_ioctl, hd]
  have hsys : ∀ val : Int,
      (target_temp_store k2 context usbdev (some val) len).2.1.oven.target_temp
        = to_int16 val := by
    intro val
    simp [target_temp_store]
  refine ⟨hio, hsys, ?_⟩
  intro v data hlo hhi hv hdata
  rw [hio, hsys]
  unfold to_int16
  constructor <;> omega

/-- C11, checked on a context bound to device 3 with v = 200: the ioctl leaves 800, the
sysfs store leaves 200; and with v = -1 (ioctl argument 2^64 - 1): -4 against -1. -/
theorem target_temp_units_disagree_witness :
    ((oven_ioctl kernel_ok { sample_context with usb_device := some (usb_device_ptr.real 3) }
        ioctl_code.PCBOVEN_SET_TEMPERATURE 200).2.1.oven.target_temp
      ≠ (target_temp_store kernel_ok
          { sample_context with usb_device := some (usb_device_ptr.real 3) }
          (usb_device_ptr.real 3) (some 200) 3).2.1.oven.target_temp) ∧
    (oven_ioctl kernel_ok { sample_context with usb_device := some (usb_device_ptr.real 3) }
        ioctl_code.PCBOVEN_SET_TEMPERATURE 200).2.1.oven.target_temp = 800 ∧
    (target_temp_store kernel_ok
        { sample_context with usb_device := some (usb_device_ptr.real 3) }
        (usb_device_ptr.real 3) (some 200) 3).2.1.oven.target_temp = 200 ∧
    (oven_ioctl kernel_ok { sample_context with usb_device := some (usb_device_ptr.real 3) }
        ioctl_code.PCBOVEN_SET_TEMPERATURE 18446744073709551615).2.1.oven.target_temp = -4 ∧
    (target_temp_store kernel_ok
        { sample_context with usb_device := some (usb_device_ptr.real 3) }
        (usb_device_ptr.real 3) (some (-1)) 2).2.1.oven.target_temp = -1 :=
  ⟨((target_temp_units_disagree kernel_ok kernel_ok
      { sample_context with usb_device := some (usb_device_ptr.real 3) }
      (usb_device_ptr.real 3) 3 (by decide)).2.2 200 200
      (by decide) (by decide) (by decide) (by decide)).2,
   by decide, by decide, by decide, by decide⟩

end PCBoven
